import Mathlib

/-!
Shallow embedding of the UPI payment workflow of the Kafal-Coorperation
repository: the payment routes (generate, confirm, receipt retrieval,
status check) and the account-mutation helper updateMemberForPayment,
together with the database-helper semantics of config/database.js.

Monetary amounts (SQL DECIMAL, JS numbers) are modelled as rationals;
timestamps as integers (milliseconds, as in JS Date); SQL tables as lists
of rows; NULLable columns as Option.

A crucial fact of config/database.js: the helpers executeQuery and getOne
have signature (sql, params) and always run through pool.execute with
autocommit; they accept no connection parameter. The payment routes pass
the transaction wrapper's connection as a third argument, which JavaScript
silently ignores, so every statement issued inside the confirm handler is
committed immediately on a pool connection and the wrapper's rollback
undoes none of them. The operational model below therefore applies each
statement's effect directly to the shared database state; a thrown error
aborts the remaining statements but the effects already applied persist.
-/

inductive Purpose where
  | membership_fee
  | share_purchase
  | loan_repayment
  | deposit
  | other
  deriving DecidableEq, Repr

/-- String form of a purpose, as bound into SQL text and stored columns. -/
def purposeToString (p : Purpose) : String :=
  match p with
  | Purpose.membership_fee => "membership_fee"
  | Purpose.share_purchase => "share_purchase"
  | Purpose.loan_repayment => "loan_repayment"
  | Purpose.deposit => "deposit"
  | Purpose.other => "other"

/-- Parse of the request-body purpose against the isIn enum list of the
generate route. -/
def parsePurpose (s : String) : Option Purpose :=
  if s = "membership_fee" then some Purpose.membership_fee
  else if s = "share_purchase" then some Purpose.share_purchase
  else if s = "loan_repayment" then some Purpose.loan_repayment
  else if s = "deposit" then some Purpose.deposit
  else if s = "other" then some Purpose.other
  else none

inductive PaymentStatus where
  | pending
  | completed
  | failed
  | expired
  deriving DecidableEq, Repr

inductive MemberStatus where
  | active
  | inactive
  | suspended
  | pending_payment
  deriving DecidableEq, Repr

/-- Row of the members table (the columns the payment workflow touches). -/
structure Member where
  id : Nat
  account_number : String
  first_name : String
  last_name : String
  phone : String
  balance : Rat
  share_count : Int
  share_value : Rat
  membership_fees_paid : Rat
  entry_fee_paid : Bool
  welfare_fund_paid : Bool
  building_fund_paid : Bool
  status : MemberStatus
  deriving DecidableEq, Repr

/-- Row of the upi_payment_requests table. -/
structure PaymentRequest where
  request_id : Nat
  member_id : Nat
  transaction_id : String
  amount : Rat
  purpose : Purpose
  description : Option String
  payment_status : PaymentStatus
  payment_method : Option String
  bank_reference_number : Option String
  receipt_generated : Bool
  expires_at : Int
  paid_at : Option Int
  deriving DecidableEq, Repr

/-- Row of the transactions table as inserted by updateMemberForPayment.
balance_after is an Option because the source fills it with a scalar
subquery (SELECT balance FROM members WHERE id = ?), which is NULL when no
such member row exists. -/
structure TransactionRecord where
  member_id : Nat
  transaction_type : String
  amount : Rat
  description : String
  balance_after : Option Rat
  created_at : Int
  deriving DecidableEq, Repr

/-- Row of the payment_receipts table (indexed columns; the receipt_data
JSON blob denormalizes constants and fields already present here). -/
structure Receipt where
  payment_request_id : Nat
  member_id : Nat
  receipt_number : String
  amount : Rat
  payment_date : Int
  purpose : String
  bank_reference : Option String
  deriving DecidableEq, Repr

/-- The shared relational store. nextRequestId models the AUTO_INCREMENT
counter of upi_payment_requests. -/
structure DB where
  members : List Member
  requests : List PaymentRequest
  transactions : List TransactionRecord
  receipts : List Receipt
  nextRequestId : Nat
  deriving DecidableEq, Repr

/-- JavaScript `x || dflt` on an optional string: null, undefined and the
empty string all fall back to the default. -/
def jsOr (s : Option String) (dflt : String) : String :=
  match s with
  | some v => if v.length = 0 then dflt else v
  | none => dflt

/-- JavaScript `x || null` on an optional string. -/
def jsOrNull (s : Option String) : Option String :=
  match s with
  | some v => if v.length = 0 then none else some v
  | none => none

/-- SELECT * FROM upi_payment_requests WHERE transaction_id = ? AND
payment_status = 'pending', via getOne (first matching row). -/
def findPendingRequest (db : DB) (tid : String) : Option PaymentRequest :=
  db.requests.find? fun q =>
    decide (q.transaction_id = tid ∧ q.payment_status = PaymentStatus.pending)

/-- UPDATE upi_payment_requests SET payment_status = 'expired' WHERE
request_id = ?. -/
def markExpired (db : DB) (rid : Nat) : DB :=
  { db with requests := db.requests.map fun q =>
      if q.request_id = rid then { q with payment_status := PaymentStatus.expired } else q }

/-- UPDATE upi_payment_requests SET payment_status = 'completed',
payment_method = ?, bank_reference_number = ?, paid_at = NOW() WHERE
request_id = ?. -/
def markCompleted (db : DB) (rid : Nat) (method bankRef : Option String) (now : Int) : DB :=
  { db with requests := db.requests.map fun q =>
      if q.request_id = rid then
        { q with payment_status := PaymentStatus.completed,
                 payment_method := some (jsOr method "UPI"),
                 bank_reference_number := bankRef,
                 paid_at := some now }
      else q }

/-- Purpose-specific SET clause of the members UPDATE in
updateMemberForPayment. Note the membership_fee branch: every threshold
comparison binds the single payment amount (each SQL placeholder is bound
to `amount`), not the updated cumulative membership_fees_paid, and the
status CASE resets to 'pending_payment' whenever amount < 2400. -/
def updateMemberRow (purpose : Purpose) (amount : Rat) (m : Member) : Member :=
  match purpose with
  | Purpose.membership_fee =>
      { m with membership_fees_paid := m.membership_fees_paid + amount,
               entry_fee_paid := if amount ≥ 200 then true else m.entry_fee_paid,
               welfare_fund_paid := if amount ≥ 400 then true else m.welfare_fund_paid,
               building_fund_paid := if amount ≥ 2400 then true else m.building_fund_paid,
               status := if amount ≥ 2400 then MemberStatus.active else MemberStatus.pending_payment }
  | Purpose.share_purchase =>
      { m with share_count := m.share_count + Rat.floor (amount / 100),
               share_value := m.share_value + amount,
               balance := m.balance + amount }
  | Purpose.deposit => { m with balance := m.balance + amount }
  | Purpose.loan_repayment => { m with balance := m.balance + amount }
  | Purpose.other => { m with balance := m.balance + amount }

/-- The members UPDATE statement of updateMemberForPayment (first statement
of the helper). -/
def memberPurposeUpdate (db : DB) (r : PaymentRequest) : DB :=
  { db with members := db.members.map fun m =>
      if m.id = r.member_id then updateMemberRow r.purpose r.amount m else m }

/-- Scalar subquery SELECT balance FROM members WHERE id = ? (first row, or
NULL if none). -/
def selectBalance (db : DB) (memberId : Nat) : Option Rat :=
  (db.members.find? fun m => decide (m.id = memberId)).map Member.balance

/-- INSERT INTO transactions ... VALUES (?, 'credit', ?, ?, (SELECT balance
FROM members WHERE id = ?), NOW()) — second statement of
updateMemberForPayment; the balance snapshot reads the current (post
UPDATE) members table. -/
def insertTransactionRecord (db : DB) (r : PaymentRequest) (now : Int) : DB :=
  { db with transactions := db.transactions ++
      [{ member_id := r.member_id,
         transaction_type := "credit",
         amount := r.amount,
         description := purposeToString r.purpose ++ " payment",
         balance_after := selectBalance db r.member_id,
         created_at := now }] }

/-- updateMemberForPayment from the payments route: purpose-specific member
UPDATE followed by the transactions INSERT. -/
def updateMemberForPayment (db : DB) (r : PaymentRequest) (now : Int) : DB :=
  insertTransactionRecord (memberPurposeUpdate db r) r now

/-- INSERT INTO payment_receipts ... of the confirm handler. -/
def insertReceipt (db : DB) (r : PaymentRequest) (receiptNumber : String)
    (bankRef : Option String) (now : Int) : DB :=
  { db with receipts := db.receipts ++
      [{ payment_request_id := r.request_id,
         member_id := r.member_id,
         receipt_number := receiptNumber,
         amount := r.amount,
         payment_date := now,
         purpose := purposeToString r.purpose,
         bank_reference := bankRef }] }

/-- UPDATE upi_payment_requests SET receipt_generated = TRUE WHERE
request_id = ?. -/
def markReceiptGenerated (db : DB) (rid : Nat) : DB :=
  { db with requests := db.requests.map fun q =>
      if q.request_id = rid then { q with receipt_generated := true } else q }

/-- Outcome of the confirm handler, abstracting its HTTP responses: ok is
the 200 success body; notFound the thrown 'Payment request not found or
already processed'; expiredReq the thrown 'Payment request has expired';
storageError a database error thrown by one of the statements. -/
inductive ConfirmOutcome where
  | ok (receiptNumber : String)
  | notFound
  | expiredReq
  | storageError
  deriving DecidableEq, Repr

/-- Fault-injection point inside the confirm handler's statement sequence:
the named statement throws a database error before applying its effect.
noFault is the fault-free run. -/
inductive Fault where
  | noFault
  | atCompletedUpdate
  | atMemberUpdate
  | atTransactionInsert
  | atReceiptInsert
  | atFlagUpdate
  deriving DecidableEq, Repr

/-- The statement sequence of the confirm handler after the expiry check,
with fault injection. Each statement is executed through the query helper,
i.e. autocommitted on a pool connection (the connection argument the route
passes is not a parameter of the helper and is ignored), so on a fault the
effects of the statements already executed persist: the transaction
wrapper of config/database.js rolls back only its own (unused) connection. -/
def confirmWrites (db : DB) (r : PaymentRequest) (bankRef method : Option String)
    (now : Int) (receiptNumber : String) (fault : Fault) : ConfirmOutcome × DB :=
  if fault = Fault.atCompletedUpdate then (ConfirmOutcome.storageError, db) else
  let db1 := markCompleted db r.request_id method bankRef now
  if fault = Fault.atMemberUpdate then (ConfirmOutcome.storageError, db1) else
  let db2 := memberPurposeUpdate db1 r
  if fault = Fault.atTransactionInsert then (ConfirmOutcome.storageError, db2) else
  let db3 := insertTransactionRecord db2 r now
  if fault = Fault.atReceiptInsert then (ConfirmOutcome.storageError, db3) else
  let db4 := insertReceipt db3 r receiptNumber bankRef now
  if fault = Fault.atFlagUpdate then (ConfirmOutcome.storageError, db4) else
  (ConfirmOutcome.ok receiptNumber, markReceiptGenerated db4 r.request_id)

/-- POST /upi/confirm with fault injection. callerId is the authenticated
member identity (req.user.id) available to the handler; the handler body
never reads it. receiptNumber stands for the RCP-prefixed number the
handler draws from the clock and Math.random. -/
def confirmRun (db : DB) (tid : String) (bankRef method : Option String)
    (now : Int) (receiptNumber : String) (callerId : Nat) (fault : Fault) :
    ConfirmOutcome × DB :=
  match findPendingRequest db tid with
  | none => (ConfirmOutcome.notFound, db)
  | some r =>
    if now > r.expires_at then
      (ConfirmOutcome.expiredReq, markExpired db r.request_id)
    else
      confirmWrites db r bankRef method now receiptNumber fault

/-- POST /upi/confirm, fault-free. -/
def confirm (db : DB) (tid : String) (bankRef method : Option String)
    (now : Int) (receiptNumber : String) (callerId : Nat) : ConfirmOutcome × DB :=
  confirmRun db tid bankRef method now receiptNumber callerId Fault.noFault

/-- Outcome of the generate handler: ok carries insertId, transaction_id and
expires_at from the 200 body; validationFailed is the 400 response;
serverError the 500 path (member lookup after the insert found no row). -/
inductive GenerateOutcome where
  | ok (requestId : Nat) (tid : String) (expiresAt : Int)
  | validationFailed
  | serverError
  deriving DecidableEq, Repr

/-- Validator of the generate route body: amount isFloat min 1, purpose in
the five-value enum, description optional with max length 500. -/
def validateGenerate (amount : Rat) (purposeStr : String) (descr : Option String) : Bool :=
  decide (1 ≤ amount) && (parsePurpose purposeStr).isSome &&
    (match descr with
     | none => true
     | some s => decide (s.length ≤ 500))

/-- Expiry window of a payment request: 30 minutes, in milliseconds. -/
def expiryWindowMs : Int := 30 * 60 * 1000

/-- POST /upi/generate: on passing validation, inserts a pending request
expiring 30 minutes from now, then looks the member up for the response
body (the insert is not inside any transaction, so it persists even when
that lookup fails). tid stands for the KCS-prefixed identifier drawn from
the clock and Math.random. -/
def generate (db : DB) (memberId : Nat) (amount : Rat) (purposeStr : String)
    (descr : Option String) (now : Int) (tid : String) : GenerateOutcome × DB :=
  if validateGenerate amount purposeStr descr then
    match parsePurpose purposeStr with
    | none => (GenerateOutcome.validationFailed, db)
    | some p =>
      let req : PaymentRequest :=
        { request_id := db.nextRequestId,
          member_id := memberId,
          transaction_id := tid,
          amount := amount,
          purpose := p,
          description := jsOrNull descr,
          payment_status := PaymentStatus.pending,
          payment_method := none,
          bank_reference_number := none,
          receipt_generated := false,
          expires_at := now + expiryWindowMs,
          paid_at := none }
      let db1 : DB := { db with requests := db.requests ++ [req],
                                nextRequestId := db.nextRequestId + 1 }
      match db1.members.find? fun m => decide (m.id = memberId) with
      | none => (GenerateOutcome.serverError, db1)
      | some _ => (GenerateOutcome.ok req.request_id tid req.expires_at, db1)
  else
    (GenerateOutcome.validationFailed, db)

/-- Projection returned by GET /status/:transaction_id. -/
structure StatusView where
  transaction_id : String
  amount : Rat
  purpose : Purpose
  payment_status : PaymentStatus
  expires_at : Int
  paid_at : Option Int
  receipt_generated : Bool
  deriving DecidableEq, Repr

/-- Column projection of the status SELECT. -/
def toStatusView (q : PaymentRequest) : StatusView :=
  { transaction_id := q.transaction_id,
    amount := q.amount,
    purpose := q.purpose,
    payment_status := q.payment_status,
    expires_at := q.expires_at,
    paid_at := q.paid_at,
    receipt_generated := q.receipt_generated }

/-- GET /status/:transaction_id: a single SELECT filtered by transaction_id
and the caller's member id; the handler issues no UPDATE, so the database
component of the result is the input state unchanged. -/
def checkStatus (db : DB) (tid : String) (callerId : Nat) : Option StatusView × DB :=
  ((db.requests.find? fun q =>
      decide (q.transaction_id = tid ∧ q.member_id = callerId)).map toStatusView, db)

/-- GET /receipt/:receipt_number: getOne over payment_receipts INNER JOINed
with members and upi_payment_requests, filtered by receipt_number and the
caller's member id; returns the joined row or null (404). -/
def retrieveReceipt (db : DB) (receiptNumber : String) (callerId : Nat) :
    Option (Receipt × Member × PaymentRequest) :=
  (db.receipts.find? fun rc =>
      decide (rc.receipt_number = receiptNumber ∧ rc.member_id = callerId)).bind fun rc =>
  (db.members.find? fun m => decide (m.id = rc.member_id)).bind fun m =>
  (db.requests.find? fun q => decide (q.request_id = rc.payment_request_id)).map fun q =>
    (rc, m, q)


/-- Balance delta of a confirmed payment by purpose, as read off the
purpose-specific UPDATE statements: membership_fee leaves the balance
column untouched, every other purpose credits the amount. -/
def balanceDelta (p : Purpose) (amount : Rat) : Rat :=
  match p with
  | Purpose.membership_fee => 0
  | Purpose.share_purchase => amount
  | Purpose.loan_repayment => amount
  | Purpose.deposit => amount
  | Purpose.other => amount

/-- Fresh member row with the schema defaults of the members table
(share_count 2, share_value 200, fees 0, flags FALSE, status
pending_payment) and zero balance. -/
def memberFresh : Member :=
  { id := 1, account_number := "KCS001", first_name := "Asha", last_name := "Rawat",
    phone := "9999999999", balance := 0, share_count := 2, share_value := 200,
    membership_fees_paid := 0, entry_fee_paid := false, welfare_fund_paid := false,
    building_fund_paid := false, status := MemberStatus.pending_payment }

/-- Second member row, distinct from memberFresh. -/
def memberOther : Member :=
  { memberFresh with id := 2, account_number := "KCS002" }

/-- Pending payment request of member 1 with the schema defaults. -/
def pendingReq (rid : Nat) (tid : String) (amount : Rat) (p : Purpose) (expires : Int) :
    PaymentRequest :=
  { request_id := rid, member_id := 1, transaction_id := tid, amount := amount,
    purpose := p, description := none, payment_status := PaymentStatus.pending,
    payment_method := none, bank_reference_number := none, receipt_generated := false,
    expires_at := expires, paid_at := none }

/-- Store with one fresh member and two pending membership_fee requests of
100 each. -/
def dbMF : DB :=
  { members := [memberFresh],
    requests := [pendingReq 1 "K1" 100 Purpose.membership_fee 1000,
                 pendingReq 2 "K2" 100 Purpose.membership_fee 1000],
    transactions := [], receipts := [], nextRequestId := 3 }

/-- Pending deposit request used by the fault-injection and concurrency
scenarios. -/
def reqDep : PaymentRequest := pendingReq 1 "K1" 100 Purpose.deposit 1000

/-- Store with one fresh member and one pending deposit request of 100. -/
def dbDep : DB :=
  { members := [memberFresh], requests := [reqDep],
    transactions := [], receipts := [], nextRequestId := 2 }

/-- Pending deposit request expiring at time 100. -/
def reqExp : PaymentRequest := pendingReq 1 "K1" 100 Purpose.deposit 100

/-- Store with one fresh member and one pending deposit request expiring at
time 100. -/
def dbExp : DB :=
  { members := [memberFresh], requests := [reqExp],
    transactions := [], receipts := [], nextRequestId := 2 }

/-- Completed variant of the deposit request. -/
def reqDone : PaymentRequest :=
  { reqDep with payment_status := PaymentStatus.completed }

/-- Store whose only request with transaction_id K1 is already completed. -/
def dbDone : DB :=
  { members := [memberFresh], requests := [reqDone],
    transactions := [], receipts := [], nextRequestId := 2 }

/-- Receipt RCP1 for the completed request, owned by member 1. -/
def receiptOwned : Receipt :=
  { payment_request_id := 1, member_id := 1, receipt_number := "RCP1", amount := 100,
    payment_date := 5, purpose := "deposit", bank_reference := none }

/-- Store with two members, a completed request and one receipt owned by
member 1. -/
def dbRec : DB :=
  { members := [memberFresh, memberOther], requests := [reqDone],
    transactions := [], receipts := [receiptOwned], nextRequestId := 2 }

/-- Store with one fresh member and no requests yet. -/
def dbEmptyReq : DB :=
  { members := [memberFresh], requests := [], transactions := [], receipts := [],
    nextRequestId := 1 }

/-- C1: after two confirmed membership_fee payments of 100 each, the
member's cumulative membership_fees_paid is 200 yet entry_fee_paid is
still false and the status is still pending_payment: the threshold CASE
expressions compare the single payment amount, not the cumulative total,
so the claimed flag flip at cumulative 200 does not happen. -/
theorem membershipFee_flags_use_single_payment_amount :
    ((confirm (confirm dbMF "K1" none none 5 "R1" 1).2 "K2" none none 6 "R2" 1).2.members.map
      fun m => (m.membership_fees_paid, m.entry_fee_paid, m.status)) =
      [(200, false, MemberStatus.pending_payment)] := by
  norm_num +decide [confirm, confirmRun, confirmWrites, findPendingRequest, markCompleted,
    memberPurposeUpdate, updateMemberRow, insertTransactionRecord, selectBalance,
    insertReceipt, markReceiptGenerated, jsOr, purposeToString, dbMF, memberFresh,
    pendingReq, List.find?]

/-- C2: a failure of the payment_receipts INSERT leaves the request
completed, the member's balance credited and a transaction record written
while no receipt exists: the helpers of config/database.js run every
statement autocommitted on the pool and ignore the passed connection, so
the transaction wrapper's rollback undoes none of the earlier statements
and the partial state is observable afterwards. -/
theorem confirm_receiptFault_partial_state :
    (confirmRun dbDep "K1" none none 5 "R1" 1 Fault.atReceiptInsert).1 =
        ConfirmOutcome.storageError ∧
    ((confirmRun dbDep "K1" none none 5 "R1" 1 Fault.atReceiptInsert).2.requests.map
        fun q => q.payment_status) = [PaymentStatus.completed] ∧
    (confirmRun dbDep "K1" none none 5 "R1" 1 Fault.atReceiptInsert).2.receipts = [] ∧
    ((confirmRun dbDep "K1" none none 5 "R1" 1 Fault.atReceiptInsert).2.members.map
        fun m => m.balance) = [100] ∧
    ((confirmRun dbDep "K1" none none 5 "R1" 1 Fault.atReceiptInsert).2.transactions.map
        fun t => t.amount) = [100] := by
  norm_num +decide [confirmRun, confirmWrites, findPendingRequest, markCompleted,
    memberPurposeUpdate, updateMemberRow, insertTransactionRecord, selectBalance,
    jsOr, purposeToString, dbDep, reqDep, memberFresh, pendingReq, List.find?]

/-- C4 counterexample: a confirm call at a current time equal to the stored
expires_at does not fail as Expired — the handler's check is the strict
comparison now > expires_at — and the request ends up completed, against
the claim that every confirm at now ≥ expires_at fails and the status is
persisted as expired. -/
theorem confirm_at_exact_expiry_completes :
    (confirm dbExp "K1" none none 100 "R1" 1).1 = ConfirmOutcome.ok "R1" ∧
    ((confirm dbExp "K1" none none 100 "R1" 1).2.requests.map
        fun q => q.payment_status) = [PaymentStatus.completed] := by
  norm_num +decide [confirm, confirmRun, confirmWrites, findPendingRequest, markCompleted,
    memberPurposeUpdate, updateMemberRow, insertTransactionRecord, selectBalance,
    insertReceipt, markReceiptGenerated, jsOr, purposeToString, dbExp, reqExp, memberFresh,
    pendingReq, List.find?]

/-- C6: interleaving of two concurrent confirm calls for the same
transaction_id in which both lookups run before either write sequence.
Every statement of the handler is autocommitted separately on the pool (no
transaction joins the passed connection, no row lock, and the completed
UPDATE is keyed on request_id alone with no pending-status guard), so this
interleaving is allowed and both calls run their full write sequences:
both succeed, two receipts and two transaction records are written, and
the member's balance is credited twice. -/
theorem concurrent_confirms_double_credit :
    findPendingRequest dbDep "K1" = some reqDep ∧
    ¬ (5 : Int) > reqDep.expires_at ∧ ¬ (6 : Int) > reqDep.expires_at ∧
    (confirmWrites dbDep reqDep none none 5 "R1" Fault.noFault).1 = ConfirmOutcome.ok "R1" ∧
    (confirmWrites (confirmWrites dbDep reqDep none none 5 "R1" Fault.noFault).2
        reqDep none none 6 "R2" Fault.noFault).1 = ConfirmOutcome.ok "R2" ∧
    ((confirmWrites (confirmWrites dbDep reqDep none none 5 "R1" Fault.noFault).2
        reqDep none none 6 "R2" Fault.noFault).2.receipts.map
        fun rc => rc.receipt_number) = ["R1", "R2"] ∧
    ((confirmWrites (confirmWrites dbDep reqDep none none 5 "R1" Fault.noFault).2
        reqDep none none 6 "R2" Fault.noFault).2.transactions.map
        fun t => t.amount) = [100, 100] ∧
    ((confirmWrites (confirmWrites dbDep reqDep none none 5 "R1" Fault.noFault).2
        reqDep none none 6 "R2" Fault.noFault).2.members.map
        fun m => m.balance) = [200] := by
  norm_num +decide [confirmWrites, findPendingRequest, markCompleted, memberPurposeUpdate,
    updateMemberRow, insertTransactionRecord, selectBalance, insertReceipt,
    markReceiptGenerated, jsOr, purposeToString, dbDep, reqDep, memberFresh,
    pendingReq, List.find?]

/-- C10 counterexample: the amount one half is strictly positive and
deposit is a valid purpose, yet generate rejects it as a validation
failure and persists nothing — the validator is isFloat with min 1, not a
positivity check. -/
theorem generate_rejects_positive_amount_below_one :
    (0 : Rat) < 1 / 2 ∧
    generate dbDep 1 (1 / 2) "deposit" none 0 "K9" = (GenerateOutcome.validationFailed, dbDep) := by
  norm_num +decide [generate, validateGenerate, parsePurpose]

/-- The fault-free write sequence of the confirm handler in composed form. -/
theorem confirmWrites_noFault_eq (db : DB) (r : PaymentRequest) (br pm : Option String)
    (now : Int) (rn : String) :
    confirmWrites db r br pm now rn Fault.noFault =
      (ConfirmOutcome.ok rn,
        markReceiptGenerated
          (insertReceipt (updateMemberForPayment (markCompleted db r.request_id pm br now) r now)
            r rn br now)
          r.request_id) := by
  simp [confirmWrites, updateMemberForPayment]

/-- Confirm when no pending request matches the transaction identifier. -/
theorem confirm_eq_notFound (db : DB) (tid : String) (br pm : Option String) (now : Int)
    (rn : String) (c : Nat) (h : findPendingRequest db tid = none) :
    confirm db tid br pm now rn c = (ConfirmOutcome.notFound, db) := by
  simp [confirm, confirmRun, h]

/-- Confirm when the pending request is found and the clock is strictly past
its expiry. -/
theorem confirm_eq_expired (db : DB) (tid : String) (br pm : Option String) (now : Int)
    (rn : String) (c : Nat) (r : PaymentRequest)
    (hr : findPendingRequest db tid = some r) (hnow : now > r.expires_at) :
    confirm db tid br pm now rn c = (ConfirmOutcome.expiredReq, markExpired db r.request_id) := by
  simp [confirm, confirmRun, hr, hnow]

/-- Confirm when the pending request is found and not yet strictly expired. -/
theorem confirm_eq_writes (db : DB) (tid : String) (br pm : Option String) (now : Int)
    (rn : String) (c : Nat) (r : PaymentRequest)
    (hr : findPendingRequest db tid = some r) (hnow : ¬ now > r.expires_at) :
    confirm db tid br pm now rn c = confirmWrites db r br pm now rn Fault.noFault := by
  simp [confirm, confirmRun, hr, hnow]

/-- The purpose-specific member UPDATE never changes the primary key. -/
theorem updateMemberRow_id (p : Purpose) (a : Rat) (m : Member) :
    (updateMemberRow p a m).id = m.id := by
  cases p <;> rfl

/-- Lookup by member id commutes with the keyed conditional update of the
members table, for any row function preserving the id column. -/
theorem find?_members_update (l : List Member) (mid : Nat) (g : Member → Member)
    (hg : ∀ m, (g m).id = m.id) :
    ((l.map fun m => if m.id = mid then g m else m).find? fun m => decide (m.id = mid)) =
      Option.map (fun m => if m.id = mid then g m else m)
        (l.find? fun m => decide (m.id = mid)) := by
  rw [List.find?_map]
  have hp : ((fun m => decide (m.id = mid)) ∘ fun m => if m.id = mid then g m else m) =
      fun m => decide (m.id = mid) := by
    funext m
    by_cases h : m.id = mid
    · simp [Function.comp, h, hg]
    · simp [Function.comp, h]
  rw [hp]

/-- After the fault-free write sequence for request r, no request carrying
the same transaction identifier is still pending, provided r was the only
request with that identifier. -/
theorem findPending_after_noFault_writes (db : DB) (tid : String) (r : PaymentRequest)
    (br pm : Option String) (now : Int) (rn : String)
    (huni : ∀ q ∈ db.requests, q.transaction_id = tid → q.request_id = r.request_id) :
    findPendingRequest (confirmWrites db r br pm now rn Fault.noFault).2 tid = none := by
  rw [confirmWrites_noFault_eq]
  unfold findPendingRequest
  simp only [markReceiptGenerated, insertReceipt, updateMemberForPayment,
    insertTransactionRecord, memberPurposeUpdate, markCompleted, List.map_map]
  rw [List.find?_eq_none]
  intro x hx
  rw [List.mem_map] at hx
  obtain ⟨q0, hq0, rfl⟩ := hx
  by_cases hqid : q0.request_id = r.request_id
  · simp [Function.comp, hqid]
  · have hnt : ¬ q0.transaction_id = tid := fun h => hqid (huni q0 hq0 h)
    simp [Function.comp, hqid, hnt]

/-- C3: when every request carrying a transaction identifier has left the
pending status, a confirm call for that identifier fails with the
not-found/already-processed error and changes nothing (no second
transaction record, receipt or account mutation); in particular, after a
successful confirm of an identifier that names a unique request, a second
confirm of the same identifier fails and changes nothing. -/
theorem confirm_rejects_nonpending_and_second_confirm
    (db : DB) (tid : String) (br pm br2 pm2 : Option String) (now now2 : Int)
    (rn rn2 : String) (c c2 : Nat) :
    ((∀ q ∈ db.requests, q.transaction_id = tid → q.payment_status ≠ PaymentStatus.pending) →
      confirm db tid br pm now rn c = (ConfirmOutcome.notFound, db)) ∧
    (∀ db2, confirm db tid br pm now rn c = (ConfirmOutcome.ok rn, db2) →
      (∀ q ∈ db.requests, ∀ q2 ∈ db.requests, q.transaction_id = tid →
        q2.transaction_id = tid → q.request_id = q2.request_id) →
      confirm db2 tid br2 pm2 now2 rn2 c2 = (ConfirmOutcome.notFound, db2)) := by
  constructor
  · intro h
    apply confirm_eq_notFound
    unfold findPendingRequest
    rw [List.find?_eq_none]
    intro q hq
    simp only [decide_eq_true_eq, not_and]
    intro ht hp
    exact h q hq ht hp
  · intro db2 hok huni
    cases hfind : findPendingRequest db tid with
    | none =>
        rw [confirm_eq_notFound db tid br pm now rn c hfind] at hok
        simp at hok
    | some r =>
        have hfind0 := hfind
        unfold findPendingRequest at hfind0
        have hrfacts : r.transaction_id = tid ∧ r.payment_status = PaymentStatus.pending := by
          simpa using List.find?_some hfind0
        have hrmem : r ∈ db.requests := List.mem_of_find?_eq_some hfind0
        by_cases hnow : now > r.expires_at
        · rw [confirm_eq_expired db tid br pm now rn c r hfind hnow] at hok
          simp at hok
        · rw [confirm_eq_writes db tid br pm now rn c r hfind hnow] at hok
          have hdb2 : (confirmWrites db r br pm now rn Fault.noFault).2 = db2 := by
            exact congrArg Prod.snd hok
          apply confirm_eq_notFound
          rw [← hdb2]
          exact findPending_after_noFault_writes db tid r br pm now rn
            (fun q hq ht => huni q hq r hrmem ht hrfacts.1)

/-- Witness for C3: on a store whose only K1 request is already completed,
confirm fails with notFound and leaves the store unchanged; and after a
successful confirm of the pending K1 request, a second confirm of K1 fails
with notFound and leaves the store unchanged. -/
theorem confirm_rejects_nonpending_witness :
    confirm dbDone "K1" none none 5 "R9" 1 = (ConfirmOutcome.notFound, dbDone) ∧
    confirm (confirm dbDep "K1" none none 5 "R1" 1).2 "K1" none none 6 "R2" 1 =
      (ConfirmOutcome.notFound, (confirm dbDep "K1" none none 5 "R1" 1).2) := by
  constructor
  · exact (confirm_rejects_nonpending_and_second_confirm dbDone "K1" none none none none
      5 6 "R9" "R2" 1 1).1 (by decide)
  · refine (confirm_rejects_nonpending_and_second_confirm dbDep "K1" none none none none
      5 6 "R1" "R2" 1 1).2 (confirm dbDep "K1" none none 5 "R1" 1).2 ?_ (by decide)
    have h1 : (confirm dbDep "K1" none none 5 "R1" 1).1 = ConfirmOutcome.ok "R1" := by
      norm_num +decide [confirm, confirmRun, confirmWrites, findPendingRequest,
        markCompleted, memberPurposeUpdate, updateMemberRow, insertTransactionRecord,
        selectBalance, insertReceipt, markReceiptGenerated, jsOr, purposeToString,
        dbDep, reqDep, memberFresh, pendingReq, List.find?]
    rw [← h1]

/-- C4 amended: for every pending request and every confirm call at a
current time strictly greater than the stored expires_at, the call fails
as expired, the request's status is persisted as expired (never
completed), and no member row, transaction record or receipt is touched. -/
theorem confirm_strictly_after_expiry (db : DB) (tid : String) (br pm : Option String)
    (now : Int) (rn : String) (c : Nat) (r : PaymentRequest)
    (hr : findPendingRequest db tid = some r) (hnow : now > r.expires_at) :
    confirm db tid br pm now rn c = (ConfirmOutcome.expiredReq, markExpired db r.request_id) ∧
    (markExpired db r.request_id).members = db.members ∧
    (markExpired db r.request_id).transactions = db.transactions ∧
    (markExpired db r.request_id).receipts = db.receipts ∧
    { r with payment_status := PaymentStatus.expired } ∈ (markExpired db r.request_id).requests ∧
    (∀ q ∈ (markExpired db r.request_id).requests, q.request_id = r.request_id →
      q.payment_status = PaymentStatus.expired) := by
  have hfind0 := hr
  unfold findPendingRequest at hfind0
  have hrmem : r ∈ db.requests := List.mem_of_find?_eq_some hfind0
  refine ⟨confirm_eq_expired db tid br pm now rn c r hr hnow, rfl, rfl, rfl, ?_, ?_⟩
  · have : ({ r with payment_status := PaymentStatus.expired } : PaymentRequest) =
        (if r.request_id = r.request_id then
          { r with payment_status := PaymentStatus.expired } else r) := by simp
    rw [this, markExpired]
    exact List.mem_map_of_mem _ hrmem
  · intro q hq hid
    rw [markExpired] at hq
    rw [List.mem_map] at hq
    obtain ⟨q0, hq0, rfl⟩ := hq
    by_cases h0 : q0.request_id = r.request_id
    · simp [h0]
    · simp only [if_neg h0] at hid ⊢
      exact absurd hid h0

/-- Witness for C4: confirming the pending K1 request (expiring at time
100) at time 101 fails as expired, persists the expired status and touches
no member, transaction or receipt row. -/
theorem confirm_strictly_after_expiry_witness :
    confirm dbExp "K1" none none 101 "R1" 1 =
      (ConfirmOutcome.expiredReq, markExpired dbExp reqExp.request_id) ∧
    (markExpired dbExp reqExp.request_id).members = dbExp.members ∧
    (markExpired dbExp reqExp.request_id).transactions = dbExp.transactions ∧
    (markExpired dbExp reqExp.request_id).receipts = dbExp.receipts ∧
    { reqExp with payment_status := PaymentStatus.expired } ∈
      (markExpired dbExp reqExp.request_id).requests ∧
    (∀ q ∈ (markExpired dbExp reqExp.request_id).requests, q.request_id = reqExp.request_id →
      q.payment_status = PaymentStatus.expired) :=
  confirm_strictly_after_expiry dbExp "K1" none none 101 "R1" 1 reqExp
    (by decide) (by decide)

/-- C8: the confirm handler never reads the authenticated caller's member
identity — two confirm runs differing only in the caller produce identical
outcomes and identical stores — and on a pending, unexpired request the
call succeeds for any caller. -/
theorem confirm_caller_independent (db : DB) (tid : String) (br pm : Option String)
    (now : Int) (rn : String) (c1 c2 : Nat) (r : PaymentRequest)
    (hr : findPendingRequest db tid = some r) (hnow : ¬ now > r.expires_at) :
    confirm db tid br pm now rn c1 = confirm db tid br pm now rn c2 ∧
    (confirm db tid br pm now rn c1).1 = ConfirmOutcome.ok rn := by
  refine ⟨rfl, ?_⟩
  rw [confirm_eq_writes db tid br pm now rn c1 r hr hnow, confirmWrites_noFault_eq]

/-- Witness for C8: confirming the pending K1 request as caller 1 and as
caller 2 gives the same result, and the call succeeds. -/
theorem confirm_caller_independent_witness :
    confirm dbDep "K1" none none 5 "R1" 1 = confirm dbDep "K1" none none 5 "R1" 2 ∧
    (confirm dbDep "K1" none none 5 "R1" 1).1 = ConfirmOutcome.ok "R1" :=
  confirm_caller_independent dbDep "K1" none none 5 "R1" 1 2 reqDep (by decide) (by decide)

/-- C9: the status read is mutation-free — the store after the read is the
input store, for any number of reads — and a pending request is reported
with its stored pending status even at a current time past its expiry;
only a confirm attempt transitions such a request to expired. -/
theorem checkStatus_readonly_reports_stored (db : DB) (tid : String) (caller : Nat)
    (now : Int) (r : PaymentRequest)
    (hr : db.requests.find?
      (fun q => decide (q.transaction_id = tid ∧ q.member_id = caller)) = some r)
    (hp : r.payment_status = PaymentStatus.pending)
    (hexp : now ≥ r.expires_at) :
    (checkStatus db tid caller).2 = db ∧
    (checkStatus (checkStatus db tid caller).2 tid caller).2 = db ∧
    (checkStatus db tid caller).1 = some (toStatusView r) ∧
    (toStatusView r).payment_status = PaymentStatus.pending := by
  refine ⟨rfl, rfl, ?_, ?_⟩
  · show Option.map toStatusView (db.requests.find?
      fun q => decide (q.transaction_id = tid ∧ q.member_id = caller)) = some (toStatusView r)
    rw [hr]
    rfl
  · simp [toStatusView, hp]

/-- Witness for C9: reading the status of the pending K1 request (expiring
at time 100) at time 200 changes nothing and still reports pending. -/
theorem checkStatus_readonly_witness :
    (checkStatus dbExp "K1" 1).2 = dbExp ∧
    (checkStatus (checkStatus dbExp "K1" 1).2 "K1" 1).2 = dbExp ∧
    (checkStatus dbExp "K1" 1).1 = some (toStatusView reqExp) ∧
    (toStatusView reqExp).payment_status = PaymentStatus.pending :=
  checkStatus_readonly_reports_stored dbExp "K1" 1 200 reqExp
    (by decide) (by decide) (by decide)

/-- C5: generate followed by a successful confirm appends exactly one
credit transaction record whose amount is the request amount and whose
balance_after snapshot is the pre-confirm balance plus the purpose
delta (zero for membership_fee, the amount otherwise), read after the
member UPDATE inside the same run; for share_purchase the member row
additionally gains floor(amount / 100) shares and amount share value. -/
theorem generate_confirm_ledger
    (db : DB) (memberId : Nat) (amount : Rat) (ps : String) (p : Purpose) (d : Option String)
    (now0 now : Int) (tid : String) (br pm : Option String) (rn : String) (c : Nat)
    (m0 : Member)
    (hval : validateGenerate amount ps d = true)
    (hp : parsePurpose ps = some p)
    (hm : db.members.find? (fun m => decide (m.id = memberId)) = some m0)
    (hfresh : ∀ q ∈ db.requests, q.transaction_id ≠ tid)
    (hnow : ¬ now > now0 + expiryWindowMs) :
    ∃ db1 db2,
      generate db memberId amount ps d now0 tid =
        (GenerateOutcome.ok db.nextRequestId tid (now0 + expiryWindowMs), db1) ∧
      confirm db1 tid br pm now rn c = (ConfirmOutcome.ok rn, db2) ∧
      db2.transactions = db.transactions ++
        [{ member_id := memberId, transaction_type := "credit", amount := amount,
           description := purposeToString p ++ " payment",
           balance_after := some (m0.balance + balanceDelta p amount),
           created_at := now }] ∧
      (db2.members.find? fun m => decide (m.id = memberId)) =
        some (updateMemberRow p amount m0) ∧
      (p = Purpose.share_purchase →
        (updateMemberRow p amount m0).share_count = m0.share_count + Rat.floor (amount / 100) ∧
        (updateMemberRow p amount m0).share_value = m0.share_value + amount ∧
        (updateMemberRow p amount m0).balance = m0.balance + amount) := by
  have hm0id : m0.id = memberId := by simpa using List.find?_some hm
  set req : PaymentRequest :=
    { request_id := db.nextRequestId, member_id := memberId, transaction_id := tid,
      amount := amount, purpose := p, description := jsOrNull d,
      payment_status := PaymentStatus.pending, payment_method := none,
      bank_reference_number := none, receipt_generated := false,
      expires_at := now0 + expiryWindowMs, paid_at := none } with hreq
  set db1 : DB := { db with requests := db.requests ++ [req],
                            nextRequestId := db.nextRequestId + 1 } with hdb1
  have hgen : generate db memberId amount ps d now0 tid =
      (GenerateOutcome.ok db.nextRequestId tid (now0 + expiryWindowMs), db1) := by
    simp [generate, hval, hp, hm, hdb1, hreq]
  have h0 : db.requests.find?
      (fun q => decide (q.transaction_id = tid ∧
        q.payment_status = PaymentStatus.pending)) = none := by
    rw [List.find?_eq_none]
    intro q hq
    simp [hfresh q hq]
  have hfind1 : findPendingRequest db1 tid = some req := by
    show (db.requests ++ [req]).find?
      (fun q => decide (q.transaction_id = tid ∧
        q.payment_status = PaymentStatus.pending)) = some req
    rw [List.find?_append, h0]
    simp [hreq]
  have hconf := confirm_eq_writes db1 tid br pm now rn c req hfind1 hnow
  rw [confirmWrites_noFault_eq] at hconf
  refine ⟨db1,
    markReceiptGenerated
      (insertReceipt (updateMemberForPayment (markCompleted db1 req.request_id pm br now) req now)
        req rn br now) req.request_id,
    hgen, hconf, ?_, ?_, ?_⟩
  · have hsel : selectBalance
        (memberPurposeUpdate (markCompleted db1 req.request_id pm br now) req) memberId =
        some ((updateMemberRow p amount m0).balance) := by
      show Option.map Member.balance
        ((db.members.map fun m => if m.id = memberId then updateMemberRow p amount m else m).find?
          fun m => decide (m.id = memberId)) = some ((updateMemberRow p amount m0).balance)
      rw [find?_members_update db.members memberId (updateMemberRow p amount)
        (updateMemberRow_id p amount), hm]
      simp [hm0id]
    have hbal : (updateMemberRow p amount m0).balance = m0.balance + balanceDelta p amount := by
      cases p <;> simp [updateMemberRow, balanceDelta]
    have htrans : (markReceiptGenerated
        (insertReceipt (updateMemberForPayment (markCompleted db1 req.request_id pm br now) req now)
          req rn br now) req.request_id).transactions = db.transactions ++
        [{ member_id := memberId, transaction_type := "credit", amount := amount,
           description := purposeToString p ++ " payment",
           balance_after := selectBalance
             (memberPurposeUpdate (markCompleted db1 req.request_id pm br now) req) memberId,
           created_at := now }] := rfl
    rw [htrans, hsel, hbal]
  · show (db.members.map fun m => if m.id = memberId then updateMemberRow p amount m else m).find?
        (fun m => decide (m.id = memberId)) = some (updateMemberRow p amount m0)
    rw [find?_members_update db.members memberId (updateMemberRow p amount)
      (updateMemberRow_id p amount), hm]
    simp [hm0id]
  · intro hps
    subst hps
    exact ⟨rfl, rfl, rfl⟩

/-- Witness for C5: generating a share_purchase request of 250 for the
fresh member and confirming it appends one credit record of 250 with
balance_after 0 + 250, and the member row gains floor(250 / 100) = 2
shares and 250 share value. -/
theorem generate_confirm_ledger_witness :
    ∃ db1 db2,
      generate dbEmptyReq 1 250 "share_purchase" none 0 "K5" =
        (GenerateOutcome.ok dbEmptyReq.nextRequestId "K5" (0 + expiryWindowMs), db1) ∧
      confirm db1 "K5" none none 10 "R5" 1 = (ConfirmOutcome.ok "R5", db2) ∧
      db2.transactions = dbEmptyReq.transactions ++
        [{ member_id := 1, transaction_type := "credit", amount := 250,
           description := purposeToString Purpose.share_purchase ++ " payment",
           balance_after := some (memberFresh.balance + balanceDelta Purpose.share_purchase 250),
           created_at := 10 }] ∧
      (db2.members.find? fun m => decide (m.id = 1)) =
        some (updateMemberRow Purpose.share_purchase 250 memberFresh) ∧
      (Purpose.share_purchase = Purpose.share_purchase →
        (updateMemberRow Purpose.share_purchase 250 memberFresh).share_count =
          memberFresh.share_count + Rat.floor (250 / 100) ∧
        (updateMemberRow Purpose.share_purchase 250 memberFresh).share_value =
          memberFresh.share_value + 250 ∧
        (updateMemberRow Purpose.share_purchase 250 memberFresh).balance =
          memberFresh.balance + 250) :=
  generate_confirm_ledger dbEmptyReq 1 250 "share_purchase" Purpose.share_purchase none 0 10
    "K5" none none "R5" 1 memberFresh
    (by norm_num +decide [validateGenerate, parsePurpose])
    (by decide) (by decide) (by decide) (by decide)

/-- C7: a receipt lookup succeeds exactly when a receipt with the requested
number exists and is owned by the requesting member, and any returned
record is that owned receipt — an unknown number or a receipt owned by a
different member yields null (404) and no data; stated under referential
integrity of the receipt's member and request foreign keys. -/
theorem receipt_retrieval_ownership (db : DB) (rn : String) (caller : Nat)
    (hfk : ∀ rc ∈ db.receipts,
      (∃ m ∈ db.members, m.id = rc.member_id) ∧
      (∃ q ∈ db.requests, q.request_id = rc.payment_request_id)) :
    ((retrieveReceipt db rn caller).isSome ↔
      ∃ rc ∈ db.receipts, rc.receipt_number = rn ∧ rc.member_id = caller) ∧
    (∀ rc m q, retrieveReceipt db rn caller = some (rc, m, q) →
      rc ∈ db.receipts ∧ rc.receipt_number = rn ∧ rc.member_id = caller) := by
  cases hfo : db.receipts.find?
      (fun rc => decide (rc.receipt_number = rn ∧ rc.member_id = caller)) with
  | none =>
      have hno : ¬ ∃ rc ∈ db.receipts, rc.receipt_number = rn ∧ rc.member_id = caller := by
        rw [List.find?_eq_none] at hfo
        rintro ⟨rc, hrc, h1, h2⟩
        exact hfo rc hrc (by simp [h1, h2])
      constructor
      · rw [retrieveReceipt, hfo]
        simpa using hno
      · intro rc m q hsome
        rw [retrieveReceipt, hfo] at hsome
        simp at hsome
  | some rc0 =>
      have hp0 : rc0.receipt_number = rn ∧ rc0.member_id = caller := by
        simpa using List.find?_some hfo
      have hmem0 : rc0 ∈ db.receipts := List.mem_of_find?_eq_some hfo
      obtain ⟨⟨m1, hm1, hm1id⟩, q1, hq1, hq1id⟩ := hfk rc0 hmem0
      have hfm : (db.members.find? fun m => decide (m.id = rc0.member_id)).isSome := by
        rw [List.find?_isSome]
        exact ⟨m1, hm1, by simp [hm1id]⟩
      obtain ⟨m2, hm2⟩ := Option.isSome_iff_exists.mp hfm
      have hfq : (db.requests.find?
          fun q => decide (q.request_id = rc0.payment_request_id)).isSome := by
        rw [List.find?_isSome]
        exact ⟨q1, hq1, by simp [hq1id]⟩
      obtain ⟨q2, hq2⟩ := Option.isSome_iff_exists.mp hfq
      have hret : retrieveReceipt db rn caller = some (rc0, m2, q2) := by
        rw [retrieveReceipt, hfo]
        simp only [Option.some_bind]
        rw [hm2]
        simp only [Option.some_bind]
        rw [hq2]
        rfl
      constructor
      · constructor
        · intro _
          exact ⟨rc0, hmem0, hp0.1, hp0.2⟩
        · intro _
          rw [hret]
          rfl
      · intro rc m q hsome
        rw [hret] at hsome
        simp only [Option.some.injEq, Prod.mk.injEq] at hsome
        obtain ⟨h1, h2, h3⟩ := hsome
        subst h1
        exact ⟨hmem0, hp0.1, hp0.2⟩

/-- Witness for C7: on the store with receipt RCP1 owned by member 1, the
lookup as member 1 succeeds exactly as characterized. -/
theorem receipt_retrieval_ownership_witness :
    ((retrieveReceipt dbRec "RCP1" 1).isSome ↔
      ∃ rc ∈ dbRec.receipts, rc.receipt_number = "RCP1" ∧ rc.member_id = 1) ∧
    (∀ rc m q, retrieveReceipt dbRec "RCP1" 1 = some (rc, m, q) →
      rc ∈ dbRec.receipts ∧ rc.receipt_number = "RCP1" ∧ rc.member_id = 1) :=
  receipt_retrieval_ownership dbRec "RCP1" 1 (by decide)

/-- C10 amended: generate fails validation exactly when the amount is below
1 (isFloat min 1 — not mere positivity), the purpose is outside the
five-value enum, or the description exceeds 500 characters; every request
with amount at least 1 and a valid purpose, issued by an existing member,
is accepted and persisted as a pending request with the given amount,
purpose and a 30-minute expiry. -/
theorem generate_validation_boundary (db : DB) (memberId : Nat) (amount : Rat)
    (ps : String) (d : Option String) (now : Int) (tid : String) :
    (validateGenerate amount ps d = false ↔
      (amount < 1 ∨ parsePurpose ps = none ∨ ∃ s, d = some s ∧ 500 < s.length)) ∧
    (validateGenerate amount ps d = false →
      generate db memberId amount ps d now tid = (GenerateOutcome.validationFailed, db)) ∧
    (∀ p, validateGenerate amount ps d = true → parsePurpose ps = some p →
      (∃ m ∈ db.members, m.id = memberId) →
      ∃ db1, generate db memberId amount ps d now tid =
          (GenerateOutcome.ok db.nextRequestId tid (now + expiryWindowMs), db1) ∧
        ∃ q ∈ db1.requests, q.transaction_id = tid ∧
          q.payment_status = PaymentStatus.pending ∧ q.amount = amount ∧ q.purpose = p ∧
          q.expires_at = now + expiryWindowMs) := by
  have hchar : validateGenerate amount ps d = true ↔
      (1 ≤ amount ∧ (parsePurpose ps).isSome = true ∧
        (∀ s, d = some s → s.length ≤ 500)) := by
    cases d <;> simp [validateGenerate, and_assoc]
  refine ⟨?_, ?_, ?_⟩
  · constructor
    · intro h
      by_contra hcon
      push_neg at hcon
      obtain ⟨h1, h2, h3⟩ := hcon
      have hv : validateGenerate amount ps d = true :=
        hchar.mpr ⟨h1, Option.ne_none_iff_isSome.mp h2, h3⟩
      rw [h] at hv
      simp at hv
    · intro h
      cases hb : validateGenerate amount ps d with
      | false => rfl
      | true =>
          exfalso
          obtain ⟨h1, h2, h3⟩ := hchar.mp hb
          rcases h with h | h | ⟨s, hs, hlen⟩
          · exact absurd h1 (not_le.mpr h)
          · rw [h] at h2
            simp at h2
          · exact absurd (h3 s hs) (not_le.mpr hlen)
  · intro h
    simp [generate, h]
  · intro p hval hp hm
    obtain ⟨m1, hm1, hid⟩ := hm
    have hfm : (db.members.find? fun m => decide (m.id = memberId)).isSome := by
      rw [List.find?_isSome]
      exact ⟨m1, hm1, by simp [hid]⟩
    obtain ⟨m2, hm2⟩ := Option.isSome_iff_exists.mp hfm
    refine ⟨{ db with
                requests := db.requests ++
                  [{ request_id := db.nextRequestId, member_id := memberId,
                     transaction_id := tid, amount := amount, purpose := p,
                     description := jsOrNull d, payment_status := PaymentStatus.pending,
                     payment_method := none, bank_reference_number := none,
                     receipt_generated := false, expires_at := now + expiryWindowMs,
                     paid_at := none }],
                nextRequestId := db.nextRequestId + 1 }, ?_, ?_⟩
    · simp [generate, hval, hp, hm2]
    · refine ⟨{ request_id := db.nextRequestId, member_id := memberId,
                transaction_id := tid, amount := amount, purpose := p,
                description := jsOrNull d, payment_status := PaymentStatus.pending,
                payment_method := none, bank_reference_number := none,
                receipt_generated := false, expires_at := now + expiryWindowMs,
                paid_at := none }, ?_, rfl, rfl, rfl, rfl, rfl⟩
      exact List.mem_append.mpr (Or.inr (by simp))

/-- Witness for C10 amended: a share_purchase request of 250 by the
existing member 1 passes validation and is persisted as pending with a
30-minute expiry. -/
theorem generate_validation_boundary_witness :
    ∃ db1, generate dbEmptyReq 1 250 "share_purchase" none 7 "K7" =
        (GenerateOutcome.ok dbEmptyReq.nextRequestId "K7" (7 + expiryWindowMs), db1) ∧
      ∃ q ∈ db1.requests, q.transaction_id = "K7" ∧
        q.payment_status = PaymentStatus.pending ∧ q.amount = 250 ∧
        q.purpose = Purpose.share_purchase ∧ q.expires_at = 7 + expiryWindowMs :=
  (generate_validation_boundary dbEmptyReq 1 250 "share_purchase" none 7 "K7").2.2
    Purpose.share_purchase (by norm_num +decide [validateGenerate, parsePurpose])
    (by decide) (by decide)
